import Mathlib

/-!
Formal model of the forex extraction pipeline of
scripts/extract_forex.py: credential loading, the single-attempt fetch
wrapper, the retrying extraction controller, the normalizer and the
storage path computation. Exceptions are modelled with Except: an
Except.error value stands for a raised Python exception carrying the
message text, and outcomes of external calls (environment lookup,
config file, remote API, wall clock) are explicit parameters.
-/

namespace ForexPipeline

/-- Model of one OHLC observation: the row index of the pandas
DataFrame is the timestamp, the columns are open, high, low, close and
the optional volume. -/
structure RawBar where
  ts : Nat
  open_ : Int
  high : Int
  low : Int
  close : Int
  volume : Option Int
deriving DecidableEq

/-- Rows of the pandas DataFrame returned by the remote call. -/
abbrev DataFrame := List RawBar

/-- Column values of a row: exactly the data drop_duplicates compares
(the columns, not the timestamp index). -/
def colsOf (b : RawBar) : Int × Int × Int × Int × Option Int :=
  (b.open_, b.high, b.low, b.close, b.volume)

/-- Model of the Python str.lower call applied to error messages (the
messages involved are ASCII). -/
def lower (s : String) : String :=
  String.mk (s.data.map Char.toLower)

/-- Failure classification of fetch_single_date_with_retry: the
message is lowercased and checked for the substrings rate, credits and
limit. -/
def is_rate_limit (e : String) : Bool :=
  let message := lower e
  decide ("rate".data <:+: message.data) ||
    decide ("credits".data <:+: message.data) ||
    decide ("limit".data <:+: message.data)

/-- Classification as the spec words it: a case-insensitive substring
match on any of rate, credits, limit. -/
def rate_limit_classified (e : String) : Prop :=
  "rate".data <:+: (lower e).data ∨ "credits".data <:+: (lower e).data ∨
    "limit".data <:+: (lower e).data

/-- Model of the config-file fallback of load_api_key: a present file
yields its DEFAULT api_key entry (a missing entry raises a KeyError,
modelled by an error carrying the missing key name); an absent file
raises the descriptive ValueError. -/
def load_api_key_fallback (config_exists : Bool) (config_api_key : Option String) :
    Except String String :=
  if config_exists then
    match config_api_key with
    | some k => Except.ok k
    | none => Except.error "api_key"
  else
    Except.error "API key not found. Set TWELVE_DATA_API_KEY environment variable or config.ini"

/-- Model of load_api_key: the environment variable wins when set and
non-empty (Python truthiness of the if api_key check), otherwise the
config-file fallback runs. -/
def load_api_key (env : Option String) (config_exists : Bool)
    (config_api_key : Option String) : Except String String :=
  match env with
  | some k =>
    if k = "" then load_api_key_fallback config_exists config_api_key else Except.ok k
  | none => load_api_key_fallback config_exists config_api_key

/-- Body of the try block of fetch_forex_data: load the key, build the
client, perform the remote call; each step may raise. -/
def fetch_forex_data_body (key : Except String String) (client : Except String Unit)
    (remote : Except String DataFrame) : Except String (Option DataFrame) := do
  let _ ← key
  let _ ← client
  let df ← remote
  pure (some df)

/-- Model of fetch_forex_data: the try block wrapped in the catch-all
except branch that turns every raised exception into a None return. -/
def fetch_forex_data (key : Except String String) (client : Except String Unit)
    (remote : Except String DataFrame) : Except String (Option DataFrame) :=
  match fetch_forex_data_body key client remote with
  | Except.ok v => Except.ok v
  | Except.error _ => Except.ok none

/-- Observable behavior of one run of the retry controller: the number
of calls made to fetch_forex_data, the sleeps performed (in seconds,
in order), and the returned value. -/
structure RetryTrace where
  calls : Nat
  sleeps : List Nat
  result : Option DataFrame
deriving DecidableEq

/-- Loop of fetch_single_date_with_retry. The attempt counter and the
guard attempt <= max_retries are carried as the count
remaining = max_retries - attempt of retries still allowed; fetch
gives the behavior of the call made at each attempt index, where an
Except.error models fetch_forex_data raising. A returned value (even
None) is returned as is; a raised error is classified, and only a
rate-limit-classified error with retries remaining sleeps for
delay_seconds and loops with the attempt incremented and the delay
doubled. -/
def fetch_retry_go (fetch : Nat → Except String (Option DataFrame)) :
    Nat → Nat → Nat → RetryTrace
  | attempt, _, 0 =>
    match fetch attempt with
    | Except.ok df => { calls := 1, sleeps := [], result := df }
    | Except.error _ => { calls := 1, sleeps := [], result := none }
  | attempt, delay_seconds, rem + 1 =>
    match fetch attempt with
    | Except.ok df => { calls := 1, sleeps := [], result := df }
    | Except.error e =>
      if is_rate_limit e then
        let rest := fetch_retry_go fetch (attempt + 1) (delay_seconds * 2) rem
        { calls := rest.calls + 1, sleeps := delay_seconds :: rest.sleeps,
          result := rest.result }
      else { calls := 1, sleeps := [], result := none }

/-- Model of fetch_single_date_with_retry: attempt starts at 0 and
delay_seconds at 10, so max_retries retries remain at the start. -/
def fetch_single_date_with_retry (fetch : Nat → Except String (Option DataFrame))
    (max_retries : Nat := 5) : RetryTrace :=
  fetch_retry_go fetch 0 10 max_retries

/-- Extraction call as the program composes it: each attempt calls
fetch_forex_data with that attempt's credential, client and remote
outcomes. -/
def composed_retry (key : Nat → Except String String) (client : Nat → Except String Unit)
    (remote : Nat → Except String DataFrame) (max_retries : Nat := 5) : RetryTrace :=
  fetch_single_date_with_retry
    (fun k => fetch_forex_data (key k) (client k) (remote k)) max_retries

/-- Concrete one-row DataFrame used by the concrete evaluations. -/
def sampleDF : DataFrame :=
  [{ ts := 0, open_ := 1, high := 2, low := 0, close := 1, volume := none }]

/-- Model of pandas df.drop_duplicates() on an indexed DataFrame: scan
the rows in order and keep a row only when its column values (the
timestamp index is not compared) have not been seen before. -/
def drop_duplicates_go (seen : List (Int × Int × Int × Int × Option Int)) :
    List RawBar → List RawBar
  | [] => []
  | r :: rest =>
    if colsOf r ∈ seen then drop_duplicates_go seen rest
    else r :: drop_duplicates_go (colsOf r :: seen) rest

/-- First-occurrence duplicate removal, df.drop_duplicates(). -/
def drop_duplicates (df : List RawBar) : List RawBar :=
  drop_duplicates_go [] df

/-- Ordering of rows by the timestamp index. -/
def tsLE (a b : RawBar) : Prop :=
  a.ts ≤ b.ts

instance : DecidableRel tsLE :=
  fun a b => Nat.decLe a.ts b.ts

instance : IsTotal RawBar tsLE :=
  ⟨fun a b => Nat.le_total a.ts b.ts⟩

instance : IsTrans RawBar tsLE :=
  ⟨fun _ _ _ h h2 => Nat.le_trans h h2⟩

/-- Model of df.sort_index(): a deterministic stable sort of the rows
by the timestamp index. -/
def sort_index (df : List RawBar) : List RawBar :=
  List.insertionSort tsLE df

/-- Row of the prepared DataFrame: the original bar plus the two
metadata columns appended to every row. -/
structure NormalizedRow where
  bar : RawBar
  symbol : String
  extraction_date : Nat
deriving DecidableEq

/-- Model of validate_and_prepare_data: a None or empty input is
returned unchanged, otherwise duplicates are removed, rows are sorted
by the timestamp index, and the symbol and extraction timestamp
columns are appended (now is the wall clock read from
pd.Timestamp.now). -/
def validate_and_prepare_data (df : Option DataFrame) (symbol : String) (now : Nat) :
    Option (List NormalizedRow) :=
  match df with
  | none => none
  | some rows =>
    if rows.isEmpty then some []
    else
      some ((sort_index (drop_duplicates rows)).map
        (fun b => { bar := b, symbol := symbol, extraction_date := now }))

/-- Zero padding of the 02d f-string format used for month and day. -/
def pad2 (n : Nat) : String :=
  if n < 10 then "0" ++ toString n else toString n

/-- Days of a month, as the strptime validity check uses them. -/
def days_in_month (y m : Nat) : Nat :=
  if m = 2 then (if (y % 4 = 0 ∧ y % 100 ≠ 0) ∨ y % 400 = 0 then 29 else 28)
  else if m = 4 ∨ m = 6 ∨ m = 9 ∨ m = 11 then 30 else 31

/-- Splitting of a character list on the dash separators. -/
def split_dash_go (cur : List Char) : List Char → List (List Char)
  | [] => [cur.reverse]
  | c :: cs =>
    if c = '-' then cur.reverse :: split_dash_go [] cs
    else split_dash_go (c :: cur) cs

/-- Reading of a digit-only field as a number. -/
def digits_to_nat_go (acc : Nat) : List Char → Option Nat
  | [] => some acc
  | c :: cs =>
    if c.isDigit then digits_to_nat_go (acc * 10 + (c.toNat - 48)) cs else none

/-- Reading of a non-empty digit-only field as a number. -/
def parse_nat (cs : List Char) : Option Nat :=
  match cs with
  | [] => none
  | _ => digits_to_nat_go 0 cs

/-- Model of datetime.strptime with the year-month-day format: split
on the dashes, read the three numbers, reject an invalid calendar
date. -/
def strptime_ymd (s : String) : Option (Nat × Nat × Nat) :=
  match split_dash_go [] s.data with
  | [ys, ms, ds] =>
    match parse_nat ys, parse_nat ms, parse_nat ds with
    | some y, some m, some d =>
      if 1 ≤ m ∧ m ≤ 12 ∧ 1 ≤ d ∧ d ≤ days_in_month y m then some (y, m, d) else none
    | _, _, _ => none
  | _ => none

/-- Symbol cleaning of save_to_gcs_parquet: every slash replaced by an
underscore (a single-character replacement is a character map), then
lowercased. -/
def clean_symbol (symbol : String) : String :=
  lower (String.mk (symbol.data.map (fun c => if c = '/' then '_' else c)))

/-- Path construction of save_to_gcs_parquet: cleaned symbol, the
year= and month= partitions, then the data file name. -/
def gcs_path_of (symbol : String) (y m d : Nat) : String :=
  let symbol_clean := clean_symbol symbol
  let month := pad2 m
  let day := pad2 d
  symbol_clean ++ "/year=" ++ toString y ++ "/month=" ++ month ++
    "/data_" ++ toString y ++ "_" ++ month ++ "_" ++ day ++ ".parquet"

/-- Storage path computed by save_to_gcs_parquet from the symbol and
the date string alone (none models a strptime parse failure, which the
except branch of save_to_gcs_parquet turns into a None return before
any write). -/
def save_to_gcs_parquet_path (symbol : String) (date_str : String) : Option String :=
  (strptime_ymd date_str).map (fun x => gcs_path_of symbol x.1 x.2.1 x.2.2)

/-- Projection of prepared rows back to their bars. -/
def bars_of (out : List NormalizedRow) : List RawBar :=
  out.map (fun x => x.bar)

/-- Helper: fetch_forex_data never yields an error value; it returns
the fetched frame when every step succeeds and None otherwise. -/
theorem fetch_forex_data_ok (key : Except String String) (client : Except String Unit)
    (remote : Except String DataFrame) :
    fetch_forex_data key client remote =
      Except.ok (match key, client, remote with
        | Except.ok _, Except.ok _, Except.ok df => some df
        | _, _, _ => none) := by
  cases key <;> cases client <;> cases remote <;> rfl

/-- Helper: a call that returns (even None) ends the loop at once. -/
theorem fetch_retry_go_ok (fetch : Nat → Except String (Option DataFrame))
    (attempt delay remaining : Nat) (v : Option DataFrame)
    (h : fetch attempt = Except.ok v) :
    fetch_retry_go fetch attempt delay remaining =
      { calls := 1, sleeps := [], result := v } := by
  cases remaining
  all_goals rw [fetch_retry_go, h]

/-- Helper: a raised error that is not rate-limit-classified ends the
loop at once with None, regardless of the retries remaining. -/
theorem fetch_retry_go_error_stop (fetch : Nat → Except String (Option DataFrame))
    (attempt delay remaining : Nat) (e : String)
    (h : fetch attempt = Except.error e) (hrl : is_rate_limit e = false) :
    fetch_retry_go fetch attempt delay remaining =
      { calls := 1, sleeps := [], result := none } := by
  cases remaining
  all_goals rw [fetch_retry_go, h]
  simp [hrl]

/-- Helper: rows surviving duplicate removal come from the input and
carry column values not seen before the scan started. -/
theorem mem_drop_duplicates_go {x : RawBar} :
    ∀ (seen : List (Int × Int × Int × Int × Option Int)) (l : List RawBar),
      x ∈ drop_duplicates_go seen l → x ∈ l ∧ colsOf x ∉ seen
  | _, [] => by simp [drop_duplicates_go]
  | seen, r :: rest => by
    rw [drop_duplicates_go]
    by_cases h : colsOf r ∈ seen
    · rw [if_pos h]
      intro hx
      have hrec := mem_drop_duplicates_go seen rest hx
      exact ⟨List.mem_cons_of_mem _ hrec.1, hrec.2⟩
    · rw [if_neg h]
      intro hx
      rcases List.mem_cons.1 hx with rfl | hx2
      · exact ⟨List.mem_cons_self _ _, h⟩
      · have hrec := mem_drop_duplicates_go (colsOf r :: seen) rest hx2
        exact ⟨List.mem_cons_of_mem _ hrec.1,
          fun hc => hrec.2 (List.mem_cons_of_mem _ hc)⟩

/-- Helper: duplicate removal leaves rows with pairwise distinct
column values. -/
theorem pairwise_drop_duplicates_go :
    ∀ (seen : List (Int × Int × Int × Int × Option Int)) (l : List RawBar),
      (drop_duplicates_go seen l).Pairwise (fun a b => colsOf a ≠ colsOf b)
  | _, [] => by simp [drop_duplicates_go]
  | seen, r :: rest => by
    rw [drop_duplicates_go]
    by_cases h : colsOf r ∈ seen
    · rw [if_pos h]
      exact pairwise_drop_duplicates_go seen rest
    · rw [if_neg h]
      refine List.Pairwise.cons ?_ (pairwise_drop_duplicates_go (colsOf r :: seen) rest)
      intro b hb hc
      exact (mem_drop_duplicates_go _ _ hb).2 (by rw [← hc]; exact List.mem_cons_self _ _)

/-- Helper: on a list with pairwise distinct column values, none of
them seen before, duplicate removal is the identity. -/
theorem drop_duplicates_go_eq_self :
    ∀ (seen : List (Int × Int × Int × Int × Option Int)) (l : List RawBar),
      (∀ a ∈ l, colsOf a ∉ seen) → l.Pairwise (fun a b => colsOf a ≠ colsOf b) →
      drop_duplicates_go seen l = l
  | _, [], _, _ => rfl
  | seen, r :: rest, hseen, hpw => by
    have hr : colsOf r ∉ seen := hseen r (List.mem_cons_self _ _)
    rw [drop_duplicates_go, if_neg hr]
    congr 1
    refine drop_duplicates_go_eq_self (colsOf r :: seen) rest ?_ hpw.of_cons
    intro a ha hmem
    rcases List.mem_cons.1 hmem with hc | hc
    · exact List.rel_of_pairwise_cons hpw ha hc.symm
    · exact hseen a (List.mem_cons_of_mem _ ha) hc

/-- Helper: a row whose column values are matched only by itself in
the input, and are unseen, survives duplicate removal. -/
theorem mem_drop_duplicates_go_of :
    ∀ (seen : List (Int × Int × Int × Int × Option Int)) (l : List RawBar) (x : RawBar),
      x ∈ l → colsOf x ∉ seen → (∀ s ∈ l, colsOf s = colsOf x → s = x) →
      x ∈ drop_duplicates_go seen l
  | _, [], x, hx, _, _ => absurd hx (List.not_mem_nil x)
  | seen, r :: rest, x, hx, hseen, huniq => by
    rw [drop_duplicates_go]
    by_cases h : colsOf r ∈ seen
    · rw [if_pos h]
      rcases List.mem_cons.1 hx with rfl | hx2
      · exact absurd h hseen
      · exact mem_drop_duplicates_go_of seen rest x hx2 hseen
          (fun s hs => huniq s (List.mem_cons_of_mem _ hs))
    · rw [if_neg h]
      rcases List.mem_cons.1 hx with rfl | hx2
      · exact List.mem_cons_self _ _
      · by_cases hrx : r = x
        · subst hrx
          exact List.mem_cons_self _ _
        · refine List.mem_cons_of_mem _
            (mem_drop_duplicates_go_of (colsOf r :: seen) rest x hx2 ?_
              (fun s hs => huniq s (List.mem_cons_of_mem _ hs)))
          intro hc
          rcases List.mem_cons.1 hc with hc2 | hc2
          · exact hrx (huniq r (List.mem_cons_self _ _) hc2.symm)
          · exact hseen hc2

/-- Helper: on a non-None input, validate_and_prepare_data is dedup,
then sort, then the metadata map. -/
theorem validate_and_prepare_data_eq (df : DataFrame) (symbol : String) (now : Nat) :
    validate_and_prepare_data (some df) symbol now =
      some ((sort_index (drop_duplicates df)).map
        (fun b => { bar := b, symbol := symbol, extraction_date := now })) := by
  show (if df.isEmpty then some [] else _) = _
  by_cases h : df.isEmpty
  · rw [if_pos h, List.isEmpty_iff.1 h]
    rfl
  · rw [if_neg h]

/-- Claim C1. With one rate-limit-classified remote failure followed
by successes (N = 1 and max_retries = 5), the claim asks for two fetch
calls, one 10 second sleep and the successful frame. The program makes
exactly one call, sleeps never and returns None, because
fetch_forex_data catches the rate-limit exception and returns None,
which the controller returns at once; the last conjunct shows the
controller loop taken alone would satisfy the claim if its callee
raised, locating the slip in the catch-all of fetch_forex_data. -/
theorem retry_swallowed_rate_limit :
    is_rate_limit "rate limit exceeded" = true ∧
    composed_retry (fun _ => Except.ok "key") (fun _ => Except.ok ())
      (fun k => if k = 0 then Except.error "rate limit exceeded" else Except.ok sampleDF) 5 =
      { calls := 1, sleeps := [], result := none } ∧
    fetch_single_date_with_retry
      (fun k => if k = 0 then Except.error "rate limit exceeded"
                else Except.ok (some sampleDF)) 5 =
      { calls := 2, sleeps := [10], result := some sampleDF } := by
  exact ⟨by decide, by decide, by decide⟩

/-- Claim C2. With every remote call failing rate-limit-classified and
max_retries = 5, the claim asks for exactly six fetch calls before the
None outcome. The program makes exactly one call and returns None, for
the same reason as in C1; the last conjunct shows the controller loop
taken alone would make the six calls with the claimed sleeps if its
callee raised. -/
theorem retry_exhaustion_unreachable :
    composed_retry (fun _ => Except.ok "key") (fun _ => Except.ok ())
      (fun _ => Except.error "rate limit exceeded") 5 =
      { calls := 1, sleeps := [], result := none } ∧
    fetch_single_date_with_retry (fun _ => Except.error "rate limit exceeded") 5 =
      { calls := 6, sleeps := [10, 20, 40, 80, 160], result := none } := by
  exact ⟨by decide, by decide⟩

/-- Claim C3: when the first remote call fails with an error that is
not rate-limit-classified, the extraction terminates at once with a
None result, after exactly one fetch call and no sleep. -/
theorem non_rate_limit_stops_immediately (key : Nat → Except String String)
    (client : Nat → Except String Unit) (remote : Nat → Except String DataFrame)
    (max_retries : Nat) (e : String)
    (h1 : remote 0 = Except.error e) (_h2 : is_rate_limit e = false) :
    composed_retry key client remote max_retries =
      { calls := 1, sleeps := [], result := none } := by
  have hf : fetch_forex_data (key 0) (client 0) (remote 0) = Except.ok none := by
    rw [h1, fetch_forex_data_ok]
    cases key 0 <;> cases client 0 <;> rfl
  rw [composed_retry, fetch_single_date_with_retry]
  exact fetch_retry_go_ok _ 0 10 max_retries none hf

/-- Witness for C3 at a concrete non-rate-limit error. -/
theorem non_rate_limit_stops_immediately_w :
    composed_retry (fun _ => Except.ok "key") (fun _ => Except.ok ())
      (fun _ => Except.error "connection refused") 5 =
      { calls := 1, sleeps := [], result := none } :=
  non_rate_limit_stops_immediately _ _ _ 5 "connection refused" rfl (by decide)

/-- Claim C4: fetch_forex_data always returns normally, with the
fetched frame when credential loading, client construction and the
remote call all succeed and None when any of them raises; hence a run
of the composed extraction always ends after its first call, and the
exception branch of the retry controller would run only if
fetch_forex_data itself raised. -/
theorem fetch_forex_data_never_raises (key : Except String String)
    (client : Except String Unit) (remote : Except String DataFrame) :
    fetch_forex_data key client remote =
      Except.ok (match key, client, remote with
        | Except.ok _, Except.ok _, Except.ok df => some df
        | _, _, _ => none) ∧
    ∀ (keys : Nat → Except String String) (clients : Nat → Except String Unit)
      (remotes : Nat → Except String DataFrame) (mr : Nat),
      ∃ v, composed_retry keys clients remotes mr =
        { calls := 1, sleeps := [], result := v } := by
  refine ⟨fetch_forex_data_ok key client remote, ?_⟩
  intro keys clients remotes mr
  refine ⟨(match keys 0, clients 0, remotes 0 with
    | Except.ok _, Except.ok _, Except.ok df => some df
    | _, _, _ => none), ?_⟩
  rw [composed_retry, fetch_single_date_with_retry]
  exact fetch_retry_go_ok _ 0 10 mr _ (fetch_forex_data_ok _ _ _)

/-- Claim C5: an error caught by the retry controller is classified as
a transient rate-limit failure exactly when its lowercased message
contains one of the substrings rate, credits or limit; a caught error
not matching is terminal, with no further call and no sleep. -/
theorem rate_limit_classification (e : String) :
    (is_rate_limit e = true ↔ rate_limit_classified e) ∧
    ∀ (fetch : Nat → Except String (Option DataFrame)) (attempt delay remaining : Nat),
      fetch attempt = Except.error e → is_rate_limit e = false →
      fetch_retry_go fetch attempt delay remaining =
        { calls := 1, sleeps := [], result := none } := by
  constructor
  · simp [is_rate_limit, rate_limit_classified, or_assoc]
  · intro fetch attempt delay remaining hf hrl
    exact fetch_retry_go_error_stop fetch attempt delay remaining e hf hrl

/-- Witness for C5 at a concrete terminal error. -/
theorem rate_limit_classification_w :
    fetch_retry_go (fun _ => Except.error "invalid symbol") 0 10 5 =
      { calls := 1, sleeps := [], result := none } :=
  (rate_limit_classification "invalid symbol").2 (fun _ => Except.error "invalid symbol")
    0 10 5 rfl (by decide)

/-- Counterexample to claim C6: with the key absent from both sources,
load_api_key raises the descriptive error, but fetch_forex_data
catches it and returns None, and the extraction run ends with the
generic no-data outcome rather than a surfaced configuration
failure (the remote outcome is a healthy frame, never consulted). -/
theorem missing_key_not_surfaced :
    load_api_key none false none =
      Except.error
        "API key not found. Set TWELVE_DATA_API_KEY environment variable or config.ini" ∧
    fetch_forex_data (load_api_key none false none) (Except.ok ()) (Except.ok sampleDF) =
      Except.ok none ∧
    composed_retry (fun _ => load_api_key none false none) (fun _ => Except.ok ())
      (fun _ => Except.ok sampleDF) 5 = { calls := 1, sleeps := [], result := none } := by
  exact ⟨rfl, rfl, by decide⟩

/-- Claim C6 (amended): with the key absent from the environment (the
variable unset or empty) and from the fallback file (file absent, or
present without the entry), credential loading raises before the
remote call is consulted, but fetch_forex_data converts the raised
error into the generic no-data outcome None. -/
theorem missing_key_generic_no_data (env : Option String) (ck : Option String)
    (henv : env = none ∨ env = some "") :
    load_api_key env false ck =
      Except.error
        "API key not found. Set TWELVE_DATA_API_KEY environment variable or config.ini" ∧
    (∀ client remote, fetch_forex_data (load_api_key env false ck) client remote =
      Except.ok none) ∧
    load_api_key env true none = Except.error "api_key" ∧
    (∀ client remote, fetch_forex_data (load_api_key env true none) client remote =
      Except.ok none) := by
  obtain rfl | rfl := henv <;>
    exact ⟨rfl, fun client remote => by rw [fetch_forex_data_ok]; rfl, rfl,
      fun client remote => by rw [fetch_forex_data_ok]; rfl⟩

/-- Witness for the amended C6 with the variable unset and the file
absent. -/
theorem missing_key_generic_no_data_w :
    load_api_key none false none =
      Except.error
        "API key not found. Set TWELVE_DATA_API_KEY environment variable or config.ini" :=
  (missing_key_generic_no_data none none (Or.inl rfl)).1

/-- Counterexample to claim C7 as stated. First conjunct: two input
rows with identical timestamp and OHLC values but different volume
columns both survive drop_duplicates, so the output holds two rows
with that timestamp and those OHLC values, not exactly one. Second
conjunct: two input rows identical in every value are both dropped
when an earlier row with equal column values and another timestamp
precedes them, so the output holds zero such rows. -/
theorem normalizer_exact_dup_counterexample :
    ((validate_and_prepare_data
        (some [{ ts := 0, open_ := 1, high := 1, low := 1, close := 1, volume := some 1 },
               { ts := 0, open_ := 1, high := 1, low := 1, close := 1, volume := some 2 }])
        "EUR/USD" 0).getD []).countP
      (fun x => decide (x.bar.ts = 0 ∧ x.bar.open_ = 1 ∧ x.bar.high = 1 ∧
        x.bar.low = 1 ∧ x.bar.close = 1)) = 2 ∧
    ((validate_and_prepare_data
        (some [{ ts := 5, open_ := 1, high := 1, low := 1, close := 1, volume := none },
               { ts := 0, open_ := 1, high := 1, low := 1, close := 1, volume := none },
               { ts := 0, open_ := 1, high := 1, low := 1, close := 1, volume := none }])
        "EUR/USD" 0).getD []).countP
      (fun x => decide (x.bar.ts = 0 ∧ x.bar.open_ = 1 ∧ x.bar.high = 1 ∧
        x.bar.low = 1 ∧ x.bar.close = 1)) = 0 := by
  exact ⟨by decide, by decide⟩

/-- Claim C7 (amended): for every input table the prepared output has
pairwise distinct rows, hence no two rows share an identical
timestamp+field tuple; it is sorted ascending by the timestamp index;
it carries any given bar at most once; and it carries exactly once any
input bar whose column values are matched only by itself in the
input. -/
theorem normalizer_invariant (df : DataFrame) (symbol : String) (now : Nat)
    (r : RawBar) (out : List NormalizedRow)
    (hout : validate_and_prepare_data (some df) symbol now = some out) :
    out.Pairwise (fun a b => a ≠ b) ∧
    out.Pairwise (fun a b => a.bar.ts ≤ b.bar.ts) ∧
    (bars_of out).count r ≤ 1 ∧
    (r ∈ df → (∀ s ∈ df, colsOf s = colsOf r → s = r) → (bars_of out).count r = 1) := by
  rw [validate_and_prepare_data_eq] at hout
  have hout2 := Option.some.inj hout
  subst hout2
  have hdd : (drop_duplicates df).Pairwise (fun a b => colsOf a ≠ colsOf b) :=
    pairwise_drop_duplicates_go [] df
  have hperm : List.Perm (sort_index (drop_duplicates df)) (drop_duplicates df) :=
    List.perm_insertionSort tsLE (drop_duplicates df)
  have hpw : (sort_index (drop_duplicates df)).Pairwise (fun a b => colsOf a ≠ colsOf b) :=
    hperm.symm.pairwise hdd (fun h hc => h hc.symm)
  have hnodup : (sort_index (drop_duplicates df)).Nodup :=
    hpw.imp (fun h he => h (by rw [he]))
  have hbars : bars_of ((sort_index (drop_duplicates df)).map
      (fun b => { bar := b, symbol := symbol, extraction_date := now })) =
      sort_index (drop_duplicates df) := by
    simp only [bars_of, List.map_map]
    exact List.map_id _
  refine ⟨?_, ?_, ?_, ?_⟩
  · exact List.pairwise_map.2 (hpw.imp (fun h he =>
      h (congrArg colsOf (congrArg NormalizedRow.bar he))))
  · exact List.pairwise_map.2 (List.sorted_insertionSort tsLE (drop_duplicates df))
  · rw [hbars]
    exact List.nodup_iff_count_le_one.1 hnodup r
  · intro hr huniq
    rw [hbars]
    refine List.count_eq_one_of_mem hnodup ?_
    rw [sort_index]
    exact (List.mem_insertionSort tsLE).2
      (mem_drop_duplicates_go_of [] df r hr (by simp) huniq)

/-- Witness for the amended C7: a single-row table keeps its row
exactly once. -/
theorem normalizer_invariant_w :
    (bars_of [{ bar := { ts := 1, open_ := 2, high := 3, low := 1, close := 2, volume := none },
                symbol := "EUR/USD", extraction_date := 7 }]).count
      { ts := 1, open_ := 2, high := 3, low := 1, close := 2, volume := none } = 1 :=
  (normalizer_invariant
    [{ ts := 1, open_ := 2, high := 3, low := 1, close := 2, volume := none }] "EUR/USD" 7
    { ts := 1, open_ := 2, high := 3, low := 1, close := 2, volume := none } _
    (by decide)).2.2.2 (by decide) (by decide)

/-- Claim C8: applying validate_and_prepare_data to a table that is
already deduplicated (pairwise distinct column values, the fixed
points of the dedup) and sorted ascending by timestamp removes no row
and keeps the order: the output is the input rows in order with only
the metadata appended. -/
theorem normalizer_idempotent (df : DataFrame) (symbol : String) (now : Nat)
    (hdedup : df.Pairwise (fun a b => colsOf a ≠ colsOf b))
    (hsorted : List.Sorted tsLE df) :
    validate_and_prepare_data (some df) symbol now =
      some (df.map (fun b => { bar := b, symbol := symbol, extraction_date := now })) := by
  rw [validate_and_prepare_data_eq, drop_duplicates,
    drop_duplicates_go_eq_self [] df (by simp) hdedup, sort_index,
    hsorted.insertionSort_eq]

/-- Witness for C8 on a concrete sorted two-row table. -/
theorem normalizer_idempotent_w :
    validate_and_prepare_data
      (some [{ ts := 0, open_ := 1, high := 1, low := 1, close := 1, volume := none },
             { ts := 1, open_ := 2, high := 2, low := 2, close := 2, volume := none }])
      "EUR/USD" 3 =
      some [{ bar := { ts := 0, open_ := 1, high := 1, low := 1, close := 1, volume := none },
              symbol := "EUR/USD", extraction_date := 3 },
            { bar := { ts := 1, open_ := 2, high := 2, low := 2, close := 2, volume := none },
              symbol := "EUR/USD", extraction_date := 3 }] :=
  normalizer_idempotent _ "EUR/USD" 3 (by decide) (by decide)

/-- Claim C9: the storage path computed by save_to_gcs_parquet is a
function of symbol and date only, and at symbol EUR/USD and date
2026-01-15 it equals the required partitioned path. -/
theorem storage_path_deterministic :
    save_to_gcs_parquet_path "EUR/USD" "2026-01-15" =
      some "eur_usd/year=2026/month=01/data_2026_01_15.parquet" := by
  decide

/-- Claim C10: duplicate removal compares only the column values and
ignores the timestamp index: when a later input row has the same
column values as the first row, the first row is retained and the
later row never reaches the output, even when their timestamps
differ. -/
theorem dedup_ignores_timestamp_index (r : RawBar) (rest : List RawBar) (s : RawBar)
    (symbol : String) (now : Nat) (out : List NormalizedRow)
    (hs : s ∈ rest) (hcols : colsOf s = colsOf r) (hne : s ≠ r)
    (hout : validate_and_prepare_data (some (r :: rest)) symbol now = some out) :
    (∃ x ∈ out, x.bar = r) ∧ ∀ x ∈ out, x.bar ≠ s := by
  rw [validate_and_prepare_data_eq] at hout
  have hout2 := Option.some.inj hout
  subst hout2
  have hdd : drop_duplicates (r :: rest) = r :: drop_duplicates_go [colsOf r] rest := by
    rw [drop_duplicates, drop_duplicates_go, if_neg (List.not_mem_nil _)]
  constructor
  · refine ⟨{ bar := r, symbol := symbol, extraction_date := now },
      List.mem_map_of_mem _ ?_, rfl⟩
    rw [sort_index]
    refine (List.mem_insertionSort tsLE).2 ?_
    rw [hdd]
    exact List.mem_cons_self _ _
  · intro x hx hbar
    obtain ⟨b, hb, rfl⟩ := List.mem_map.1 hx
    have hbs : b = s := hbar
    subst hbs
    rw [sort_index] at hb
    have hmem := (List.mem_insertionSort tsLE).1 hb
    rw [hdd] at hmem
    rcases List.mem_cons.1 hmem with hc | hc
    · exact hne hc
    · exact (mem_drop_duplicates_go _ _ hc).2 (by rw [hcols]; exact List.mem_cons_self _ _)

/-- Witness for C10: two rows with equal column values and different
timestamps keep only the first. -/
theorem dedup_ignores_timestamp_index_w :
    (∃ x ∈ ([{ bar := { ts := 0, open_ := 1, high := 2, low := 3, close := 4, volume := none },
               symbol := "EUR/USD", extraction_date := 9 }] : List NormalizedRow), x.bar =
        ({ ts := 0, open_ := 1, high := 2, low := 3, close := 4, volume := none } : RawBar)) ∧
    ∀ x ∈ ([{ bar := { ts := 0, open_ := 1, high := 2, low := 3, close := 4, volume := none },
              symbol := "EUR/USD", extraction_date := 9 }] : List NormalizedRow),
      x.bar ≠ ({ ts := 5, open_ := 1, high := 2, low := 3, close := 4, volume := none } : RawBar) :=
  dedup_ignores_timestamp_index
    { ts := 0, open_ := 1, high := 2, low := 3, close := 4, volume := none }
    [{ ts := 5, open_ := 1, high := 2, low := 3, close := 4, volume := none }]
    { ts := 5, open_ := 1, high := 2, low := 3, close := 4, volume := none }
    "EUR/USD" 9
    [{ bar := { ts := 0, open_ := 1, high := 2, low := 3, close := 4, volume := none },
       symbol := "EUR/USD", extraction_date := 9 }]
    (by decide) (by decide) (by decide) (by decide)

end ForexPipeline
